import Mathlib

/-!
Verification of the career-guidance pipeline (research-agent).

Shallow embedding of the Python sources under `src/`:
* `agents/base.py` — `BaseAgent._calculate_confidence`
* `tools/cache_db.py` — SQLite TTL cache (`get_from_cache` / `set_in_cache`)
* `tools/cache_tools.py` — file cache (`get_cached_skills`)
* `tools/skill_extraction.py` — `classify_skill_type`
* `agents/evaluator_recommender.py` — `rules_evaluator`, `EvaluatorRecommenderAgent.run`
* `tools/careeronestop_tools.py` — `fuzzy_match_occupation`
* `tools/youtube_tools.py` — `filter_resources`
* `tools/bls_tools.py` / `agents/long_term_forecast_agent.py` — growth categorisation
* `src/main.py` — short-term skills post-processing

Machine integers and Python floats are modelled as `Nat`/`Int`/`ℚ`
(all constants involved are exactly representable), timestamps as
integers, and Python dict/JSON values by the `PyJson` type below.
-/

/-- A model of Python JSON-like values (the payloads moved through the
pipeline: dicts, lists, strings, numbers, booleans, null). -/
inductive PyJson where
  | null : PyJson
  | bool (b : Bool) : PyJson
  | num (q : ℚ) : PyJson
  | str (s : String) : PyJson
  | arr (xs : List PyJson) : PyJson
  | obj (fields : List (String × PyJson)) : PyJson

/-- Embedding of `BaseAgent._calculate_confidence` (src/agents/base.py,
lines 99-108): a four-tier step schedule over the job-sample size. -/
def calculate_confidence (num_jobs : ℕ) : ℚ :=
  if num_jobs ≥ 100 then 95/100
  else if num_jobs ≥ 50 then 85/100
  else if num_jobs ≥ 25 then 70/100
  else 50/100

/-- C3: the confidence function follows the four-tier schedule
(0.95 / 0.85 / 0.70 / 0.50 at boundaries 100 / 50 / 25) and is
monotonically non-decreasing in the sample size. -/
theorem confidence_schedule_and_monotone :
    (∀ n : ℕ, (100 ≤ n → calculate_confidence n = 95/100) ∧
      (50 ≤ n → n < 100 → calculate_confidence n = 85/100) ∧
      (25 ≤ n → n < 50 → calculate_confidence n = 70/100) ∧
      (n < 25 → calculate_confidence n = 50/100)) ∧
    (∀ m n : ℕ, m ≤ n → calculate_confidence m ≤ calculate_confidence n) := by
  constructor
  · intro n
    refine ⟨fun h => ?_, fun h1 h2 => ?_, fun h1 h2 => ?_, fun h => ?_⟩ <;>
      simp only [calculate_confidence] <;> split_ifs <;> first | rfl | omega
  · intro m n hmn
    simp only [calculate_confidence]
    split_ifs <;> first | omega | norm_num

/-- Witness for C3: concrete instance of the schedule and monotonicity. -/
theorem confidence_schedule_and_monotone_witness :
    calculate_confidence 100 = 95/100 ∧ calculate_confidence 30 ≤ calculate_confidence 60 :=
  ⟨(confidence_schedule_and_monotone.1 100).1 (by norm_num),
   confidence_schedule_and_monotone.2 30 60 (by norm_num)⟩

/-- A row of the SQLite `cache` table in src/tools/cache_db.py:
`(key TEXT PRIMARY KEY, value TEXT, timestamp TEXT, ttl_seconds INTEGER)`.
The JSON round-trip `json.dumps`/`json.loads` of the payload is modelled
as storing the payload itself; timestamps are integer seconds. -/
structure CacheRow where
  key : String
  value : PyJson
  timestamp : ℤ
  ttl_seconds : ℤ

/-- The cache table: at most one row per key (PRIMARY KEY). -/
def CacheStore : Type := List CacheRow

/-- Embedding of `set_in_cache` (src/tools/cache_db.py, lines 63-83):
`INSERT OR REPLACE` keyed by `key`, stamped with the current time. -/
def set_in_cache (store : CacheStore) (key : String) (value : PyJson)
    (ttl_seconds : ℤ) (now : ℤ) : CacheStore :=
  ⟨key, value, now, ttl_seconds⟩ :: List.filter (fun r => r.key ≠ key) store

/-- Embedding of `get_from_cache` (src/tools/cache_db.py, lines 32-60):
select the row for `key`; return `none` when absent, or when
`now - cached_time > ttl_seconds`; otherwise the stored value. -/
def get_from_cache (store : CacheStore) (key : String) (now : ℤ) : Option PyJson :=
  match List.find? (fun r => r.key = key) store with
  | none => none
  | some r => if now - r.timestamp > r.ttl_seconds then none else some r.value

/-- C4: after `set(k, v, ttl)` at time `tset`, a `get(k)` at time `tget`
returns `v` while the elapsed age is at most `ttl`, and returns `none`
(absent) once the elapsed age exceeds `ttl`; an expired entry is never
returned. -/
theorem cache_set_get_roundtrip (store : CacheStore) (k : String) (v : PyJson)
    (ttl tset tget : ℤ) (_httl : 0 < ttl) :
    (tget - tset ≤ ttl →
      get_from_cache (set_in_cache store k v ttl tset) k tget = some v) ∧
    (tget - tset > ttl →
      get_from_cache (set_in_cache store k v ttl tset) k tget = none) := by
  constructor <;> intro h <;>
    simp [get_from_cache, set_in_cache, List.find?] <;> omega

/-- Witness for C4: a concrete set/get pair inside and outside the TTL. -/
theorem cache_set_get_roundtrip_witness :
    get_from_cache (set_in_cache [] "skills:data scientist" (PyJson.str "payload") 86400 1000)
      "skills:data scientist" 87400 = some (PyJson.str "payload") :=
  (cache_set_get_roundtrip [] "skills:data scientist" (PyJson.str "payload")
    86400 1000 87400 (by norm_num)).1 (by norm_num)

/-- The `timestamp` field stored for an entry of `.cache/skills_cache.json`:
either a well-formed ISO timestamp (modelled as integer seconds) or a
string `datetime.fromisoformat` rejects. -/
inductive TsField where
  | malformed : TsField
  | valid (t : ℤ) : TsField

/-- One entry of the skills cache file: a dict holding a `timestamp`
string and the cached `data`. -/
structure SkillsCacheEntry where
  timestamp : TsField
  data : PyJson

/-- Observable states of the cache file read by `get_cached_skills`
(src/tools/cache_tools.py): absent, unreadable (`open` raises),
not JSON (`json.load` raises), or a parsed role → entry mapping. -/
inductive CacheFileState where
  | missing : CacheFileState
  | unreadable : CacheFileState
  | notJson : CacheFileState
  | parsed (entries : List (String × SkillsCacheEntry)) : CacheFileState

/-- Exceptions the body of `get_cached_skills` can raise. -/
inductive PyExc where
  | ioError : PyExc
  | jsonError : PyExc
  | valueError : PyExc

/-- The body of `get_cached_skills` (src/tools/cache_tools.py, lines 23-39)
with explicit exception propagation: the existence check, the `open` /
`json.load` calls, the key lookup, the `fromisoformat` parse, and the
TTL comparison `now - cached_time > timedelta(seconds=ttl_seconds)`. -/
def get_cached_skills_body (file : CacheFileState) (role : String)
    (ttl_seconds now : ℤ) : Except PyExc (Option PyJson) :=
  match file with
  | .missing => .ok none
  | .unreadable => .error .ioError
  | .notJson => .error .jsonError
  | .parsed entries =>
    match List.find? (fun p => p.1 = role) entries with
    | none => .ok none
    | some p =>
      match p.2.timestamp with
      | .malformed => .error .valueError
      | .valid t => if now - t > ttl_seconds then .ok none else .ok (some p.2.data)

/-- Embedding of `get_cached_skills` (src/tools/cache_tools.py, lines 12-43):
the whole body sits in a `try`/`except` that converts any exception into
a `None` result (a cache miss). -/
def get_cached_skills (file : CacheFileState) (role : String)
    (ttl_seconds now : ℤ) : Option PyJson :=
  match get_cached_skills_body file role ttl_seconds now with
  | .ok v => v
  | .error _ => none

/-- C9: `get_cached_skills` is total and never raises: every raising body
is caught and converted to `none`, and a missing file, an unreadable
file, a corrupt (non-JSON) file, a missing key, and a malformed stored
timestamp each yield `none` (a cache miss). -/
theorem get_cached_skills_total_never_raises (role : String) (ttl now : ℤ) :
    (∀ file exc, get_cached_skills_body file role ttl now = .error exc →
      get_cached_skills file role ttl now = none) ∧
    get_cached_skills .missing role ttl now = none ∧
    get_cached_skills .unreadable role ttl now = none ∧
    get_cached_skills .notJson role ttl now = none ∧
    (∀ entries, List.find? (fun p => p.1 = role) entries = none →
      get_cached_skills (.parsed entries) role ttl now = none) ∧
    (∀ entries key data,
      List.find? (fun p => p.1 = role) entries = some (key, ⟨.malformed, data⟩) →
      get_cached_skills (.parsed entries) role ttl now = none) := by
  refine ⟨fun file exc h => ?_, rfl, rfl, rfl, fun entries h => ?_, fun entries key data h => ?_⟩
  · simp [get_cached_skills, h]
  · simp [get_cached_skills, get_cached_skills_body, h]
  · simp [get_cached_skills, get_cached_skills_body, h]

/-- Witness for C9: the failure shapes on a concrete file state. -/
theorem get_cached_skills_total_never_raises_witness :
    get_cached_skills .unreadable "data scientist" 86400 0 = none ∧
    get_cached_skills (.parsed [("other role", ⟨.valid 0, PyJson.null⟩)])
      "data scientist" 86400 0 = none ∧
    get_cached_skills (.parsed [("data scientist", ⟨.malformed, PyJson.null⟩)])
      "data scientist" 86400 0 = none :=
  ⟨(get_cached_skills_total_never_raises "data scientist" 86400 0).2.2.1,
   (get_cached_skills_total_never_raises "data scientist" 86400 0).2.2.2.2.1
     [("other role", ⟨.valid 0, PyJson.null⟩)] rfl,
   (get_cached_skills_total_never_raises "data scientist" 86400 0).2.2.2.2.2
     [("data scientist", ⟨.malformed, PyJson.null⟩)] "data scientist" PyJson.null rfl⟩

/-- The Python `str.lower()` method (ASCII case folding, the only case the
keyword tables exercise), computed on the character list so that it
evaluates by kernel reduction. -/
def pyLower (s : String) : String :=
  String.mk (s.data.map Char.toLower)

/-- The Python substring test `needle in hay` on character lists. -/
def listSub (needle : List Char) : List Char → Bool
  | [] => needle.isEmpty
  | c :: rest => List.isPrefixOf needle (c :: rest) || listSub needle rest

/-- The Python substring test `needle in hay` on strings. -/
def strIn (needle hay : String) : Bool :=
  listSub needle.data hay.data

/-- The keyword lists of `classify_skill_type`
(src/tools/skill_extraction.py, lines 33-36). -/
def classifyLanguages : List String :=
  ["python", "java", "javascript", "sql", "r", "c++", "go", "rust"]

/-- Framework keywords of `classify_skill_type`. -/
def classifyFrameworks : List String :=
  ["react", "django", "flask", "tensorflow", "pytorch", "spring"]

/-- Cloud keywords of `classify_skill_type`. -/
def classifyCloud : List String :=
  ["aws", "azure", "gcp", "cloud"]

/-- Database keywords of `classify_skill_type`. -/
def classifyDatabases : List String :=
  ["mysql", "postgresql", "mongodb", "redis", "sql"]

/-- Embedding of `classify_skill_type` (src/tools/skill_extraction.py,
lines 20-47): lower-case the name, then test the keyword lists in the
fixed order language, framework, cloud, database, defaulting to
`concept`. -/
def classify_skill_type (skill_name : String) : String :=
  let skill_lower := pyLower skill_name
  if classifyLanguages.any (fun kw => strIn kw skill_lower) then "language"
  else if classifyFrameworks.any (fun kw => strIn kw skill_lower) then "framework"
  else if classifyCloud.any (fun kw => strIn kw skill_lower) then "cloud"
  else if classifyDatabases.any (fun kw => strIn kw skill_lower) then "db"
  else "concept"

/-- C10: `classify_skill_type` returns exactly one of the five values
`language`, `framework`, `cloud`, `db`, `concept` — never `tool` — and a
name containing `sql` (which sits in both the language and the database
list) is classified by the earliest matching category, i.e. `language`. -/
theorem classify_skill_type_range_and_sql (s : String) :
    (classify_skill_type s = "language" ∨ classify_skill_type s = "framework" ∨
      classify_skill_type s = "cloud" ∨ classify_skill_type s = "db" ∨
      classify_skill_type s = "concept") ∧
    classify_skill_type s ≠ "tool" ∧
    (strIn "sql" (pyLower s) = true → classify_skill_type s = "language") := by
  refine ⟨?_, ?_, ?_⟩
  · simp only [classify_skill_type]
    split_ifs <;> simp
  · simp only [classify_skill_type]
    split_ifs <;> simp
  · intro h
    have hany : classifyLanguages.any (fun kw => strIn kw (pyLower s)) = true := by
      refine List.any_eq_true.mpr ⟨"sql", ?_, h⟩
      simp [classifyLanguages]
    simp [classify_skill_type, hany]

/-- Witness for C10: `MySQL` contains `sql` after lower-casing, and is
classified as a language (not `db`, not `tool`). -/
theorem classify_skill_type_range_and_sql_witness :
    strIn "sql" (pyLower "MySQL") = true ∧ classify_skill_type "MySQL" = "language" :=
  ⟨by decide, (classify_skill_type_range_and_sql "MySQL").2.2 (by decide)⟩

/-- The Python `str.startswith(p)` method. -/
def strStarts (p s : String) : Bool :=
  List.isPrefixOf p.data s.data

/-- A skill dict as consumed by the evaluator: only the `name` key is
read (`s.get("name")`, possibly absent). -/
structure PySkill where
  name : Option String

/-- One entry of `gap_analysis` built by `rules_evaluator`
(src/agents/evaluator_recommender.py, lines 57-63). `current_level` is
always set to `None` by the source. -/
structure GapItem where
  skill : String
  current_level : Option String
  market_rank : ℕ
  priority : String
  reasoning : String

/-- The result dict of `rules_evaluator`
(src/agents/evaluator_recommender.py, lines 71-77). -/
structure RulesResult where
  role_outlook : String
  gap_analysis : List GapItem
  recommended_learning_path : List String
  estimated_time_weeks : ℕ
  confidence : ℚ

/-- The priority sort key `{"High": 1, "Medium": 2, "Low": 3}[p]`
(src/agents/evaluator_recommender.py, line 66); only these three
strings are ever produced, so the `KeyError` branch is unreachable. -/
def priority_key (p : String) : ℕ :=
  if p = "High" then 1 else if p = "Medium" then 2 else 3

/-- The sort order of `sorted(gap_analysis, key=lambda x: (priority, market_rank))`:
lexicographic, ascending, on the (priority key, market rank) pair. -/
def gapLE (a b : GapItem) : Prop :=
  priority_key a.priority < priority_key b.priority ∨
    (priority_key a.priority = priority_key b.priority ∧ a.market_rank ≤ b.market_rank)

instance : DecidableRel gapLE := fun a b => by
  unfold gapLE; infer_instance

/-- The priority rules of `rules_evaluator`
(src/agents/evaluator_recommender.py, lines 47-56). -/
def gap_priority (role_outlook : String) (market_rank : ℕ) : String :=
  let ro := pyLower role_outlook
  if strStarts "high" ro || strIn "future" ro then
    if market_rank ≤ 10 then "High"
    else if market_rank ≤ 20 then "Medium" else "Low"
  else if strStarts "stable" ro then
    if market_rank ≤ 10 then "Medium" else "Low"
  else "Low"

/-- Embedding of `rules_evaluator` (src/agents/evaluator_recommender.py,
lines 29-77). `sorted` is a stable sort by the `(priority, market_rank)`
key, modelled by `List.insertionSort` (stable sorts by the same total
preorder coincide). `round(confidence, 2)` is the identity on 0.75 and
0.4. -/
def rules_evaluator (resume_skills short_term_skills : List PySkill)
    (long_term_forecast_category : Option String) : RulesResult :=
  let resume_names := resume_skills.map (fun s => pyLower (s.name.getD ""))
  let top_skills := short_term_skills.take 20
  let role_outlook := long_term_forecast_category.getD "Unknown"
  let gap_analysis := top_skills.enum.filterMap (fun p =>
    match p.2.name with
    | none => none
    | some name =>
      if name = "" then none
      else
        let market_rank := p.1 + 1
        if resume_names.contains (pyLower name) then none
        else some { skill := name, current_level := none, market_rank := market_rank,
                    priority := gap_priority role_outlook market_rank,
                    reasoning :=
                      s!"Rank #{market_rank} in short-term demand; role outlook: {role_outlook}." })
  let sorted_gaps := List.insertionSort gapLE gap_analysis
  { role_outlook := role_outlook
    gap_analysis := gap_analysis
    recommended_learning_path := (sorted_gaps.take 5).map (fun g => g.skill)
    estimated_time_weeks := 12
    confidence := if gap_analysis.isEmpty then 40/100 else 75/100 }

/-- The market skill ranking of the C1 example. -/
def exampleMarketSkills : List PySkill :=
  [⟨some "Python"⟩, ⟨some "AWS"⟩, ⟨some "Kubernetes"⟩, ⟨some "Docker"⟩, ⟨some "CI/CD"⟩]

/-- C1: on resume skills {Python, Docker, SQL}, market ranking
[Python, AWS, Kubernetes, Docker, CI/CD] and outlook
"High growth (Future-safe)", the rules evaluator yields exactly the gaps
AWS(rank 2, High), Kubernetes(rank 3, High), CI/CD(rank 5, High) in that
order, excludes Python and Docker, and recommends
[AWS, Kubernetes, CI/CD]. -/
theorem rules_evaluator_example :
    (rules_evaluator [⟨some "Python"⟩, ⟨some "Docker"⟩, ⟨some "SQL"⟩]
        exampleMarketSkills (some "High growth (Future-safe)")).gap_analysis.map
        (fun g => (g.skill, g.market_rank, g.priority)) =
      [("AWS", 2, "High"), ("Kubernetes", 3, "High"), ("CI/CD", 5, "High")] ∧
    (∀ g ∈ (rules_evaluator [⟨some "Python"⟩, ⟨some "Docker"⟩, ⟨some "SQL"⟩]
        exampleMarketSkills (some "High growth (Future-safe)")).gap_analysis,
      g.skill ≠ "Python" ∧ g.skill ≠ "Docker") ∧
    (rules_evaluator [⟨some "Python"⟩, ⟨some "Docker"⟩, ⟨some "SQL"⟩]
        exampleMarketSkills (some "High growth (Future-safe)")).recommended_learning_path =
      ["AWS", "Kubernetes", "CI/CD"] := by
  refine ⟨?_, ?_, ?_⟩ <;> decide

/-- The Python `str.strip(chars)` method for a single character: drop that
character from both ends. -/
def stripChar (c : Char) (s : String) : String :=
  String.mk (((s.data.dropWhile (fun d => d = c)).reverse.dropWhile (fun d => d = c)).reverse)

/-- The Python `str.strip()` method: drop ASCII whitespace from both ends. -/
def stripWs (s : String) : String :=
  String.mk (((s.data.dropWhile Char.isWhitespace).reverse.dropWhile Char.isWhitespace).reverse)

/-- Embedding of `safe_json_parse` (src/agents/evaluator_recommender.py,
lines 17-26), with `json.loads` as an uninterpreted parse oracle
`loads`: try the raw text; on failure strip whitespace and code-fence
backticks (character 96) and retry; on failure return `None`. -/
def safe_json_parse (loads : String → Option PyJson) (text : String) : Option PyJson :=
  match loads text with
  | some v => some v
  | none =>
    let cleaned := stripWs (stripChar (Char.ofNat 96) (stripWs text))
    loads cleaned

/-- The observable outcomes of the
`evaluate_user_skills_with_gemini` call made by
`EvaluatorRecommenderAgent.run`: it raises, returns a string, returns a
dict, or returns some other value. (Per src/tools/llm_analysis.py it
returns the parsed LLM dict on success and the `basic_skill_evaluation`
dict — keyed `match_score`/`critical_gaps`/… — when the model call
fails.) -/
inductive LLMOutcome where
  | raises : LLMOutcome
  | text (s : String) : LLMOutcome
  | dict (fields : List (String × PyJson)) : LLMOutcome
  | other : LLMOutcome

/-- The payload of `EvaluatorRecommenderAgent.run`
(src/agents/evaluator_recommender.py, lines 92-95). -/
structure EvalPayload where
  resume_skills : List PySkill
  short_term_skills : List PySkill
  long_term_forecast_category : Option String

/-- Serialisation of a `GapItem` dict. -/
def gapToJson (g : GapItem) : PyJson :=
  PyJson.obj [("skill", .str g.skill), ("current_level", .null),
    ("market_rank", .num g.market_rank), ("priority", .str g.priority),
    ("reasoning", .str g.reasoning)]

/-- The `rules_evaluator` result as the dict `run` returns. -/
def rulesToJson (r : RulesResult) : PyJson :=
  PyJson.obj [("role_outlook", .str r.role_outlook),
    ("gap_analysis", .arr (r.gap_analysis.map gapToJson)),
    ("recommended_learning_path", .arr (r.recommended_learning_path.map PyJson.str)),
    ("estimated_time_weeks", .num r.estimated_time_weeks),
    ("confidence", .num r.confidence)]

/-- The canonical rules-engine output shape: a dict with the keys
`role_outlook`, `gap_analysis`, `recommended_learning_path`,
`estimated_time_weeks`, `confidence`. -/
def hasRulesShape (j : PyJson) : Bool :=
  match j with
  | .obj fields =>
    ["role_outlook", "gap_analysis", "recommended_learning_path",
      "estimated_time_weeks", "confidence"].all
      (fun k => fields.any (fun p => p.1 = k))
  | _ => false

/-- Embedding of `EvaluatorRecommenderAgent.run`
(src/agents/evaluator_recommender.py, lines 85-120): try the LLM call;
a string result is JSON-parsed and returned if it parses to a dict; a
dict result is returned as is; every other outcome (exception, unparsable
string, non-str/non-dict value) falls through to `rules_evaluator`. -/
def agent_run (loads : String → Option PyJson) (payload : EvalPayload)
    (llm : LLMOutcome) : PyJson :=
  let fallback := rulesToJson (rules_evaluator payload.resume_skills
    payload.short_term_skills payload.long_term_forecast_category)
  match llm with
  | .raises => fallback
  | .text s =>
    match safe_json_parse loads s with
    | some (.obj fields) => .obj fields
    | _ => fallback
  | .dict fields => .obj fields
  | .other => fallback

/-- Whether the LLM path produced valid output of the rules shape
(the acceptance condition stated by the claim). -/
def llmValidShape (loads : String → Option PyJson) (llm : LLMOutcome) : Bool :=
  match llm with
  | .dict fields => hasRulesShape (.obj fields)
  | .text s =>
    match safe_json_parse loads s with
    | some (.obj fields) => hasRulesShape (.obj fields)
    | _ => false
  | _ => false

/-- C2 counterexample: the claim "whenever the LLM path does not produce
valid output of the rules shape, the returned result has the rules
shape" is false: a dict-valued LLM response is returned without any
shape validation — e.g. the empty dict, or the
`match_score`/`critical_gaps` dict that `evaluate_user_skills_with_gemini`
returns from its internal `basic_skill_evaluation` fallback. -/
theorem agent_run_claim_false :
    ¬ (∀ (loads : String → Option PyJson) (payload : EvalPayload) (llm : LLMOutcome),
        llmValidShape loads llm = false →
        hasRulesShape (agent_run loads payload llm) = true) := by
  intro h
  have := h (fun _ => none) ⟨[], [], none⟩ (.dict [("match_score", .num 0)]) rfl
  simp [agent_run, hasRulesShape] at this

/-- The rules-engine dict always carries the canonical five keys. -/
theorem rulesToJson_hasRulesShape (r : RulesResult) :
    hasRulesShape (rulesToJson r) = true := by
  simp [rulesToJson, hasRulesShape]

/-- C2 amended: whenever the LLM call raises, returns a value that is
neither a string nor a dict, or returns a string that does not parse to
a dict, `run` returns exactly the output of the rules engine, which has the
canonical shape (`role_outlook`, `gap_analysis`,
`recommended_learning_path`, `estimated_time_weeks`, `confidence`); a
dict-valued LLM response, however, is returned to the caller without
shape validation. -/
theorem agent_run_fallback_shape (loads : String → Option PyJson)
    (payload : EvalPayload) (llm : LLMOutcome)
    (h : llm = .raises ∨ llm = .other ∨
      ∃ s, llm = .text s ∧
        (∀ fields, safe_json_parse loads s ≠ some (.obj fields))) :
    agent_run loads payload llm =
      rulesToJson (rules_evaluator payload.resume_skills
        payload.short_term_skills payload.long_term_forecast_category) ∧
    hasRulesShape (agent_run loads payload llm) = true := by
  have hrun : agent_run loads payload llm =
      rulesToJson (rules_evaluator payload.resume_skills
        payload.short_term_skills payload.long_term_forecast_category) := by
    rcases h with rfl | rfl | ⟨s, rfl, hparse⟩
    · rfl
    · rfl
    · rcases hp : safe_json_parse loads s with _ | v
      · simp [agent_run, hp]
      · cases v
        case obj fields => exact absurd hp (hparse fields)
        all_goals simp [agent_run, hp]
  exact ⟨hrun, hrun ▸ rulesToJson_hasRulesShape _⟩

/-- Witness for C2 (amended): a raising LLM call on a concrete payload
falls back to the rules engine and yields the canonical shape. -/
theorem agent_run_fallback_shape_witness :
    hasRulesShape (agent_run (fun _ => none)
      ⟨[⟨some "Python"⟩], exampleMarketSkills, some "Stable"⟩ .raises) = true :=
  (agent_run_fallback_shape (fun _ => none)
    ⟨[⟨some "Python"⟩], exampleMarketSkills, some "Stable"⟩ .raises (Or.inl rfl)).2

/-- Modelled from the spec: the growth-categorisation engine of the
long-term forecast stage. `LongTermForecastAgent.run` reads
`result["category"]` and the instruction text of the agent fixes the rule
(Future-safe ≥ 10% growth, Stable 0-10%, Declining < 0%), but no
function under src/ computes the field; §3/§4.5 of the spec give the
thresholds on `growth_percent` embodied here. -/
def categorize_growth (growth_percent : ℚ) : String :=
  if growth_percent ≥ 10 then "Future-safe"
  else if growth_percent ≥ 0 then "Stable"
  else "Declining"

/-- C5: the forecast category is a deterministic function of
`growth_percent`: ≥ 10 → Future-safe, [0, 10) → Stable, < 0 → Declining;
in particular 10.0 → Future-safe, 9.999 → Stable, 0.0 → Stable,
-0.01 → Declining. -/
theorem categorize_growth_thresholds :
    (∀ g : ℚ, (10 ≤ g → categorize_growth g = "Future-safe") ∧
      (0 ≤ g → g < 10 → categorize_growth g = "Stable") ∧
      (g < 0 → categorize_growth g = "Declining")) ∧
    categorize_growth 10 = "Future-safe" ∧
    categorize_growth (9999/1000) = "Stable" ∧
    categorize_growth 0 = "Stable" ∧
    categorize_growth (-1/100) = "Declining" := by
  refine ⟨fun g => ⟨fun h => ?_, fun h0 h10 => ?_, fun h => ?_⟩, ?_, ?_, ?_, ?_⟩ <;>
    · simp only [categorize_growth]
      split_ifs <;> first | rfl | linarith

/-- Witness for C5: the general thresholds applied at 10, 5 and -3. -/
theorem categorize_growth_thresholds_witness :
    categorize_growth 10 = "Future-safe" ∧ categorize_growth 5 = "Stable" ∧
    categorize_growth (-3) = "Declining" :=
  ⟨(categorize_growth_thresholds.1 10).1 (by norm_num),
   (categorize_growth_thresholds.1 5).2.1 (by norm_num) (by norm_num),
   (categorize_growth_thresholds.1 (-3)).2.2 (by norm_num)⟩

/-- One entry of the static fallback table `common_mappings`
(src/tools/careeronestop_tools.py, lines 167-186). -/
structure FallbackEntry where
  key : String
  title : String
  soc : String
  conf : ℚ
deriving DecidableEq

/-- The 18-entry fallback table of `fuzzy_match_occupation`
(src/tools/careeronestop_tools.py, lines 167-186), in insertion order. -/
def common_mappings : List FallbackEntry :=
  [⟨"data scientist", "Data Scientists", "15-2051", 85/100⟩,
   ⟨"machine learning engineer", "Data Scientists", "15-2051", 80/100⟩,
   ⟨"ml engineer", "Data Scientists", "15-2051", 80/100⟩,
   ⟨"software engineer", "Software Developers", "15-1252", 85/100⟩,
   ⟨"software developer", "Software Developers", "15-1252", 90/100⟩,
   ⟨"developer", "Software Developers", "15-1252", 75/100⟩,
   ⟨"full stack developer", "Software Developers", "15-1252", 85/100⟩,
   ⟨"frontend developer", "Web Developers", "15-1254", 85/100⟩,
   ⟨"backend developer", "Software Developers", "15-1252", 85/100⟩,
   ⟨"web developer", "Web Developers", "15-1254", 90/100⟩,
   ⟨"devops engineer", "Software Developers", "15-1252", 75/100⟩,
   ⟨"mlops engineer", "Software Developers", "15-1252", 70/100⟩,
   ⟨"cloud engineer", "Network and Computer Systems Administrators", "15-1244", 80/100⟩,
   ⟨"cloud architect", "Computer Network Architects", "15-1241", 85/100⟩,
   ⟨"data analyst", "Data Analysts", "15-2051", 85/100⟩,
   ⟨"data engineer", "Database Architects", "15-1243", 80/100⟩,
   ⟨"business analyst", "Management Analysts", "13-1111", 80/100⟩,
   ⟨"product manager", "Computer and Information Systems Managers", "11-3021", 75/100⟩]

/-- The result dict of `fuzzy_match_occupation`. -/
structure OccMapping where
  official_title : String
  soc_code : Option String
  confidence : ℚ
  notes : String
  data_source : String
deriving DecidableEq

/-- An ASCII apostrophe, written by code point. -/
def apos : String := String.singleton (Char.ofNat 39)

/-- The note attached to a substring match:
`f"Partial match: d{job_title}d → d{key}d"` with `d` the apostrophe. -/
def partMatchNote (job_title key : String) : String :=
  "Partial match: " ++ apos ++ job_title ++ apos ++ " → " ++ apos ++ key ++ apos

/-- The exact-match lookup `title_lower in common_mappings`
(src/tools/careeronestop_tools.py, line 191). -/
def fallbackExact (title_lower : String) : Option FallbackEntry :=
  common_mappings.find? (fun m => m.key = title_lower)

/-- The first substring match in either direction, in table order
(src/tools/careeronestop_tools.py, lines 202-203). -/
def fallbackSub (title_lower : String) : Option FallbackEntry :=
  common_mappings.find? (fun m => strIn m.key title_lower || strIn title_lower m.key)

/-- Embedding of `fuzzy_match_occupation`
(src/tools/careeronestop_tools.py, lines 156-219): normalise with
`.lower().strip()`, try an exact table hit, then a substring hit in
either direction (confidence − 0.1), else return the input title
unchanged with no SOC code, confidence 0.3 and a manual-mapping note. -/
def fuzzy_match_occupation (job_title : String) : OccMapping :=
  let title_lower := stripWs (pyLower job_title)
  match fallbackExact title_lower with
  | some m =>
    ⟨m.title, some m.soc, m.conf, "Matched via fallback database (API unavailable)",
      "Local mapping"⟩
  | none =>
    match fallbackSub title_lower with
    | some m =>
      ⟨m.title, some m.soc, m.conf - 1/10, partMatchNote job_title m.key, "Local mapping"⟩
    | none =>
      ⟨job_title, none, 3/10, "No match found. Manual mapping recommended.", "No match"⟩

/-- C6: an exact (case-insensitive) table hit returns the official
title, SOC code and stored confidence of that entry; otherwise the first
substring hit in either direction returns that entry with confidence
reduced by exactly 0.1; otherwise the input title comes back unchanged
with no SOC code, confidence 0.3 and a note recommending manual
mapping. -/
theorem fuzzy_match_occupation_cases (job_title : String) :
    (∀ m, fallbackExact (stripWs (pyLower job_title)) = some m →
      fuzzy_match_occupation job_title =
        ⟨m.title, some m.soc, m.conf, "Matched via fallback database (API unavailable)",
          "Local mapping"⟩) ∧
    (fallbackExact (stripWs (pyLower job_title)) = none →
      ∀ m, fallbackSub (stripWs (pyLower job_title)) = some m →
      fuzzy_match_occupation job_title =
        ⟨m.title, some m.soc, m.conf - 1/10, partMatchNote job_title m.key,
          "Local mapping"⟩) ∧
    (fallbackExact (stripWs (pyLower job_title)) = none →
      fallbackSub (stripWs (pyLower job_title)) = none →
      fuzzy_match_occupation job_title =
        ⟨job_title, none, 3/10, "No match found. Manual mapping recommended.",
          "No match"⟩) := by
  refine ⟨fun m hm => ?_, fun he m hm => ?_, fun he hs => ?_⟩
  · simp [fuzzy_match_occupation, hm]
  · simp [fuzzy_match_occupation, he, hm]
  · simp [fuzzy_match_occupation, he, hs]

/-- Witness for C6: `Data Scientist` hits the table exactly (confidence
0.85); `Senior Data Scientist` is a substring hit (0.85 − 0.1 = 0.75);
`Quantum Chef` matches nothing and is returned unchanged. -/
theorem fuzzy_match_occupation_cases_witness :
    fuzzy_match_occupation "Data Scientist" =
      ⟨"Data Scientists", some "15-2051", 85/100,
        "Matched via fallback database (API unavailable)", "Local mapping"⟩ ∧
    fuzzy_match_occupation "Senior Data Scientist" =
      ⟨"Data Scientists", some "15-2051", 85/100 - 1/10,
        partMatchNote "Senior Data Scientist" "data scientist", "Local mapping"⟩ ∧
    fuzzy_match_occupation "Quantum Chef" =
      ⟨"Quantum Chef", none, 3/10, "No match found. Manual mapping recommended.",
        "No match"⟩ :=
  ⟨(fuzzy_match_occupation_cases "Data Scientist").1
      ⟨"data scientist", "Data Scientists", "15-2051", 85/100⟩ rfl,
   (fuzzy_match_occupation_cases "Senior Data Scientist").2.1 rfl
      ⟨"data scientist", "Data Scientists", "15-2051", 85/100⟩ rfl,
   (fuzzy_match_occupation_cases "Quantum Chef").2.2 rfl rfl⟩

/-- A candidate video as read by `filter_resources`
(src/tools/youtube_tools.py): upload date and view count. Times are in
days; `upload_date` is the parsed `%Y-%m-%d` date and `now` the moment
`datetime.now()` is taken, so `now` need not be day-aligned. -/
structure VideoResource where
  upload_date : ℚ
  views : ℕ
deriving DecidableEq

/-- The keep condition of `filter_resources`
(src/tools/youtube_tools.py, lines 222-232): the first branch keeps a
video newer than the five-year cutoff (`365*5` days) with ≥ 100000
views; the `elif` keeps a video newer than the cutoff with ≥ 50000
views. -/
def keep_resource (now : ℚ) (r : VideoResource) : Bool :=
  (decide (r.upload_date ≥ now - 365*5) && decide (r.views ≥ 100000)) ||
    (decide (r.upload_date ≥ now - 365*5) && decide (r.views ≥ 50000))

/-- Embedding of `filter_resources` (src/tools/youtube_tools.py,
lines 206-234). -/
def filter_resources (now : ℚ) (resources : List VideoResource) : List VideoResource :=
  resources.filter (keep_resource now)

/-- C7 counterexample: the claimed age gate, "upload age strictly less
than 5 years", is false of the code at the exact five-year boundary:
at upload age exactly 365·5 = 1825 days with 60000 views the filter
keeps the candidate (the comparison `upload_date >= five_years_ago` is
non-strict), while the claimed strict condition rejects it. -/
theorem filter_resources_claim_false :
    keep_resource 1825 ⟨0, 60000⟩ = true ∧
    ¬ ((((1825 : ℚ) - 0 < 365*5) ∧ 100000 ≤ 60000) ∨
        (((1825 : ℚ) - 0 < 365*5) ∧ 50000 ≤ 60000)) := by
  constructor
  · simp only [keep_resource, Bool.or_eq_true, Bool.and_eq_true, decide_eq_true_eq]
    norm_num
  · rintro (⟨h, _⟩ | ⟨h, _⟩) <;> norm_num at h

/-- C7 amended: a candidate is kept iff its upload age is at most five
years (365·5 days — the code compares the upload date against the
five-year cutoff with `>=`, so the gate is non-strict at the exact
boundary) and it has ≥ 100000 views, or its age is at most five years
and it has ≥ 50000 views; the age gate is hard: no view count saves an
older video. Concretely: 80000 views at age 2y (730 days) is kept,
80000 views at age 6y (2190 days) is rejected, and 200000 views at age
6y is rejected. -/
theorem filter_resources_policy :
    (∀ (now : ℚ) (r : VideoResource),
      keep_resource now r = true ↔
        ((now - r.upload_date ≤ 365*5 ∧ 100000 ≤ r.views) ∨
          (now - r.upload_date ≤ 365*5 ∧ 50000 ≤ r.views))) ∧
    keep_resource 10000 ⟨10000 - 730, 80000⟩ = true ∧
    keep_resource 10000 ⟨10000 - 2190, 80000⟩ = false ∧
    keep_resource 10000 ⟨10000 - 2190, 200000⟩ = false ∧
    filter_resources 10000
        [⟨10000 - 730, 80000⟩, ⟨10000 - 2190, 80000⟩, ⟨10000 - 2190, 200000⟩] =
      [⟨10000 - 730, 80000⟩] := by
  refine ⟨fun now r => ?_, ?_, ?_, ?_, ?_⟩
  · simp only [keep_resource, Bool.or_eq_true, Bool.and_eq_true, decide_eq_true_eq]
    constructor
    · rintro (⟨h1, h2⟩ | ⟨h1, h2⟩)
      · exact Or.inl ⟨by linarith, h2⟩
      · exact Or.inr ⟨by linarith, h2⟩
    · rintro (⟨h1, h2⟩ | ⟨h1, h2⟩)
      · exact Or.inl ⟨by linarith, h2⟩
      · exact Or.inr ⟨by linarith, h2⟩
  · simp [keep_resource]; norm_num
  · simp [keep_resource]; norm_num
  · simp [keep_resource]; norm_num
  · simp [filter_resources, keep_resource, List.filter]; norm_num

/-- Witness for C7 (amended): the iff applied at the exact five-year
boundary, where the non-strict gate keeps a 60000-view video. -/
theorem filter_resources_policy_witness :
    keep_resource 1825 ⟨0, 60000⟩ = true ↔
      (((1825 : ℚ) - 0 ≤ 365*5 ∧ 100000 ≤ 60000) ∨
        ((1825 : ℚ) - 0 ≤ 365*5 ∧ 50000 ≤ 60000)) :=
  filter_resources_policy.1 1825 ⟨0, 60000⟩

/-- A `Skill` record of the short-term stage (§3 of the data model:
name, category, frequency as a percentage, mention count). -/
structure Skill where
  name : String
  category : String
  frequency : ℚ
  mention_count : ℕ
deriving DecidableEq

/-- Modelled from the spec: `filter_low_quality_skills`, imported by
src/main.py from tools.skill_extraction but absent from src/; §4.4 says
"drop skills below a minimum frequency threshold (default 5%)". -/
def filter_low_quality_skills (skills : List Skill) (min_frequency : ℚ) : List Skill :=
  skills.filter (fun s => decide (min_frequency ≤ s.frequency))

/-- The ranking order of §4.4: frequency descending, ties broken by
mention count descending. -/
def skillGE (a b : Skill) : Prop :=
  b.frequency < a.frequency ∨
    (a.frequency = b.frequency ∧ b.mention_count ≤ a.mention_count)

instance : DecidableRel skillGE := fun a b => by
  unfold skillGE; infer_instance

instance : IsTotal Skill skillGE :=
  ⟨fun a b => by
    unfold skillGE
    rcases lt_trichotomy a.frequency b.frequency with h | h | h
    · exact Or.inr (Or.inl h)
    · rcases le_total b.mention_count a.mention_count with hm | hm
      · exact Or.inl (Or.inr ⟨h, hm⟩)
      · exact Or.inr (Or.inr ⟨h.symm, hm⟩)
    · exact Or.inl (Or.inl h)⟩

instance : IsTrans Skill skillGE :=
  ⟨fun a b c hab hbc => by
    unfold skillGE at *
    rcases hab with h | ⟨he, hm⟩ <;> rcases hbc with h2 | ⟨he2, hm2⟩
    · exact Or.inl (by linarith)
    · exact Or.inl (by rw [← he2]; exact h)
    · exact Or.inl (by rw [he]; exact h2)
    · exact Or.inr ⟨he.trans he2, hm2.trans hm⟩⟩

/-- Modelled from the spec: the ranking step of §4.4, "truncate to top
20 by frequency descending, ties broken by mention_count descending" —
a stable sort by that order, modelled by `List.insertionSort`. -/
def rank_skills (skills : List Skill) : List Skill :=
  List.insertionSort skillGE skills

/-- Modelled from the spec: the post-processing sequence of
src/main.py `analyze_role_skills` lines 104-107 (`merge_similar_skills`
→ `filter_low_quality_skills` with `min_frequency=5` → top-20
truncation); the merge step is kept abstract (any function), since the
properties claimed are enforced by the later steps. -/
def short_term_postprocess (merge : List Skill → List Skill)
    (skills : List Skill) : List Skill :=
  (rank_skills (filter_low_quality_skills (merge skills) 5)).take 20

/-- C8: the short-term result list has at most 20 skills, every listed
skill has frequency at least the 5% threshold, and the list is sorted
by frequency descending with ties broken by mention count descending. -/
theorem short_term_postprocess_bounds (merge : List Skill → List Skill)
    (skills : List Skill) :
    (short_term_postprocess merge skills).length ≤ 20 ∧
    (∀ s ∈ short_term_postprocess merge skills, (5 : ℚ) ≤ s.frequency) ∧
    (short_term_postprocess merge skills).Pairwise skillGE := by
  refine ⟨List.length_take_le 20 _, fun s hs => ?_, ?_⟩
  · have h1 : s ∈ rank_skills (filter_low_quality_skills (merge skills) 5) :=
      List.take_subset 20 _ hs
    have h2 : s ∈ filter_low_quality_skills (merge skills) 5 :=
      (List.perm_insertionSort skillGE _).mem_iff.mp h1
    exact of_decide_eq_true (List.mem_filter.mp h2).2
  · exact List.Pairwise.sublist (List.take_sublist 20 _)
      (List.sorted_insertionSort skillGE (filter_low_quality_skills (merge skills) 5))

/-- Witness for C8: on a concrete input the 2%-frequency skill is
dropped, the tie at frequency 80 is broken by mention count, and the
kept skill satisfies the threshold via the theorem. -/
theorem short_term_postprocess_bounds_witness :
    (⟨"SQL", "language", 80, 90⟩ : Skill) ∈
      short_term_postprocess (fun l => l)
        [⟨"AWS", "cloud", 80, 80⟩, ⟨"SQL", "language", 80, 90⟩, ⟨"Rare", "concept", 2, 2⟩] ∧
    (5 : ℚ) ≤ (Skill.mk "SQL" "language" 80 90).frequency :=
  ⟨by decide,
   (short_term_postprocess_bounds (fun l => l)
      [⟨"AWS", "cloud", 80, 80⟩, ⟨"SQL", "language", 80, 90⟩, ⟨"Rare", "concept", 2, 2⟩]).2.1
      ⟨"SQL", "language", 80, 90⟩ (by decide)⟩
